import Mathlib

/-!
# Verification of the Culturo Orchestration & Dispatch Pipeline

Shallow embedding of the orchestration core of the Culturo backend:

* `backend/core/orchestrator.py`  (`AgentOrchestrator`: `_get_user_context`,
  `_update_user_context`, `process_input`)
* `backend/agents/orchestrator.py` (`OrchestratorAgent`: `_analyze_intent`, `process`)
* `backend/agents/data_retrieval.py` (`DataRetrievalAgent`: `_process_impl`,
  `_analyze_data_needs`, `_retrieve_data`, the per-capability getters)
* `backend/agents/language_correction.py`, `backend/agents/translation.py`,
  `backend/agents/conversation.py`, `backend/agents/evaluation.py`,
  `backend/agents/personalization.py`

External LLM / provider calls are modelled by oracle values: each oracle carries
the *parsed outcome* of the corresponding call for this request (`none` /
`Except.error` = transport failure or unparseable reply, exactly the cases the
Python code converts to its written-out fallback value).  All Python functions
embedded here are total: every `except` branch of the source is represented
explicitly.  Python dict fields are `Option` fields (`none` = key absent), and
`dict.get(k, d)` is `Option.getD`.  Confidences are embedded as rationals.
-/

set_option linter.unusedVariables false

namespace Culturo

/-- A JSON-ish string value that may be `null` (Python `None`).  Needed because
the Python code distinguishes a missing `target_country` key (default
`"unknown"`) from an explicit `None`/empty value (falsy). -/
inductive StrV where
  | null
  | str (s : String)
deriving DecidableEq

/-- Python truthiness of a string-or-null value. -/
def StrV.truthy : StrV → Bool
  | .null => false
  | .str s => s ≠ ""

/-- Membership test `target_country in ["none", "unknown", None]` from
`core/orchestrator.py` line 66 / 137 and the equally phrased check in
`_update_user_context`. -/
def StrV.isSentinel : StrV → Bool
  | .null => true
  | .str s => s = "none" ∨ s = "unknown"

/-- The execution plan dict produced by `OrchestratorAgent._analyze_intent`
(either parsed from the model reply or the written-out fallback).  Field
order and names follow the JSON schema in the prompt of
`backend/agents/orchestrator.py`. -/
structure Plan where
  intent : Option String := none
  target_country : Option StrV := none
  data_sources : Option (List String) := none
  agents_to_activate : Option (List String) := none
  requires_voice : Option Bool := none
  confidence : Option ℚ := none
  reasoning : Option String := none
  needs_clarification : Option Bool := none
  clarifying_question : Option String := none
deriving DecidableEq

/-- Fallback plan returned by `OrchestratorAgent._analyze_intent` on any
transport or parse failure (`backend/agents/orchestrator.py` lines 175-184). -/
def fallbackPlan : Plan :=
  { intent := some "cultural_info"
    target_country := some (.str "unknown")
    data_sources := some ["government", "music", "food"]
    agents_to_activate := some ["cultural_context", "conversation"]
    requires_voice := some false
    confidence := some 0.3
    reasoning := some "Fallback plan due to error" }

/-- One entry of `ConversationContext.conversation_history`
(`core/orchestrator.py` lines 70-74). -/
structure HistEntry where
  query : String
  country : StrV
  timestamp : String
deriving DecidableEq

/-- Conversation-context snapshot handed to the intent classifier
(`enhanced_input["context"]` in `core/orchestrator.py` lines 92-97). -/
structure CtxSnapshot where
  last_country : StrV
  conversation_history : List HistEntry
  user_interests : List String
deriving DecidableEq

/-- `OrchestratorAgent._analyze_intent`: the reasoning-service call plus
JSON extraction is the oracle `o` (`none` = transport failure, non-200
status, a reply without braces, or a `json.loads` failure - every one of
these reaches the fallback return in the source).  `query`, `language` and
`ctx` only feed the prompt of the external call. -/
def analyzeIntent (query language : String) (ctx : CtxSnapshot)
    (o : Option Plan) : Plan :=
  match o with
  | some plan => plan
  | none => fallbackPlan

/-- Data dict of the language-correction agent
(`LanguageCorrectionAgent._analyze_language` JSON schema; only the fields
the dispatcher reads are carried). -/
structure Corrections where
  has_errors : Option Bool := none
  overall_quality : Option String := none
  confidence : Option ℚ := none
  explanation : Option String := none
deriving DecidableEq

/-- Fallback corrections dict (`language_correction.py` lines 130-139). -/
def fallbackCorrections : Corrections :=
  { has_errors := some false
    overall_quality := some "unknown"
    confidence := some 0.3
    explanation := some "Unable to analyze" }

/-- Data dict of the translation agent
(`TranslationAgent._translate_with_context`). -/
structure TransData where
  direct_translation : Option String := none
  confidence : Option ℚ := none
  reasoning : Option String := none
deriving DecidableEq

/-- Fallback translation dict (`translation.py` tail of
`_translate_with_context`); echoes the input text back. -/
def fallbackTransData (text : String) : TransData :=
  { direct_translation := some text
    confidence := some 0.3
    reasoning := some "Unable to translate" }

/-- Data dict of the conversation (response-synthesis) agent
(`ConversationAgent._generate_response`). -/
structure ConvoData where
  response : Option String := none
  tone : Option String := none
  confidence : Option ℚ := none
  reasoning : Option String := none
deriving DecidableEq

/-- Fallback conversation dict (`conversation.py` lines 161-175). -/
def fallbackConvoData : ConvoData :=
  { response := some "I'd be happy to help you learn more about different cultures! Could you tell me which country or culture you're most interested in?"
    tone := some "friendly"
    confidence := some 0.3
    reasoning := some "Fallback response due to API error" }

/-- Data dict of the evaluation agent
(`EvaluationAgent._evaluate_interaction`). -/
structure EvalData where
  confidence : Option ℚ := none
  reasoning : Option String := none
deriving DecidableEq

/-- Fallback evaluation dict (`evaluation.py` tail of
`_evaluate_interaction`). -/
def fallbackEvalData : EvalData :=
  { confidence := some 0.3
    reasoning := some "Unable to evaluate" }

/-- Analysis dict produced by `DataRetrievalAgent._analyze_data_needs`
(either parsed from the model reply or the written-out fallback). -/
structure Analysis where
  data_sources_needed : Option (List String) := none
  specific_request : Option String := none
  needs_clarification : Option Bool := none
  clarification_question : Option String := none
  suggested_options : Option (List String) := none
  confidence : Option ℚ := none
  reasoning : Option String := none
deriving DecidableEq

/-- Fallback analysis (`data_retrieval.py` lines 198-207): note that it sets
`needs_clarification` and a country-interpolated question. -/
def fallbackAnalysis (country : String) : Analysis :=
  { data_sources_needed := some ["news"]
    specific_request := some "General information request"
    needs_clarification := some true
    clarification_question :=
      some ("What specific aspect of " ++ country ++ " are you most interested in?")
    suggested_options :=
      some ["Current news", "Food recommendations", "Cultural events", "General overview"]
    confidence := some 0.3
    reasoning := some "Fallback analysis due to error" }

/-- `DataRetrievalAgent._analyze_data_needs`: the call plus extraction is the
oracle (`none` = transport or parse failure, which the source converts into the
fallback analysis). -/
def analyzeDataNeeds (o : Option Analysis) (country : String) : Analysis :=
  match o with
  | some analysis => analysis
  | none => fallbackAnalysis country

/-- Payload stored under a capability key by `_retrieve_data`.  Constructors
mirror the return dicts of the per-capability getters: articles/playlists are
represented by their titles, a TripAdvisor integration result by its raw
serialized form. -/
inductive DataPayload where
  | news (country : String) (articles : List String) (source : String)
  | music (country : String) (playlists : List String) (source : String)
  | tripFallback (country : String) (category : String) (locations : List String) (source : String)
  | integrationResult (raw : String)
  | placeholder (country : String) (message : String) (source : String)
  | errorPayload (error : String)
deriving DecidableEq

instance exceptDecEq {ε α : Type} [DecidableEq ε] [DecidableEq α] :
    DecidableEq (Except ε α)
  | .error a, .error b =>
    if h : a = b then .isTrue (by rw [h]) else .isFalse (by simp [h])
  | .error _, .ok _ => .isFalse (by simp)
  | .ok _, .error _ => .isFalse (by simp)
  | .ok a, .ok b =>
    if h : a = b then .isTrue (by rw [h]) else .isFalse (by simp [h])

/-- The per-capability provider call oracles for one request, plus which
integrations are configured (constructor arguments of `DataRetrievalAgent`).
An `Except.error e` models the integration call raising (transport failure /
timeout); `ok` carries the returned value (`[]` / `none` = falsy result). -/
structure FetchOracles where
  hasNews : Bool
  hasSpotify : Bool
  hasTrip : Bool
  newsFetch : Except String (List String)
  musicFetch : Except String (List String)
  landmarksFetch : Except String (Option String)
  restaurantsFetch : Except String (Option String)
  destinationsFetch : Except String (Option String)
deriving DecidableEq

/-- `DataRetrievalAgent._get_news_data`. -/
def getNewsData (f : FetchOracles) (country : String) : DataPayload :=
  if f.hasNews then
    match f.newsFetch with
    | .error e => .errorPayload e
    | .ok articles =>
      if articles ≠ [] then .news country articles "news_api"
      else .news country ["Latest news from " ++ country] "news_api_fallback"
  else .news country ["Latest news from " ++ country] "news_api_fallback"

/-- `DataRetrievalAgent._get_music_data`. -/
def getMusicData (f : FetchOracles) (country : String) : DataPayload :=
  if f.hasSpotify then
    match f.musicFetch with
    | .error e => .errorPayload e
    | .ok playlists =>
      if playlists ≠ [] then .music country playlists "spotify_api"
      else .music country ["Popular Music from " ++ country] "spotify_api_fallback"
  else .music country ["Popular Music from " ++ country] "spotify_api_fallback"

/-- `DataRetrievalAgent._get_landmarks_data`. -/
def getLandmarksData (f : FetchOracles) (country : String) : DataPayload :=
  if f.hasTrip then
    match f.landmarksFetch with
    | .error e => .errorPayload e
    | .ok (some raw) => .integrationResult raw
    | .ok none =>
      .tripFallback country "attractions" ["Historical Landmarks in " ++ country]
        "tripadvisor_api_fallback"
  else
    .tripFallback country "attractions" ["Historical Landmarks in " ++ country]
      "tripadvisor_api_fallback"

/-- `DataRetrievalAgent._get_restaurants_data`. -/
def getRestaurantsData (f : FetchOracles) (country : String) : DataPayload :=
  if f.hasTrip then
    match f.restaurantsFetch with
    | .error e => .errorPayload e
    | .ok (some raw) => .integrationResult raw
    | .ok none =>
      .tripFallback country "restaurants" ["Traditional Restaurants in " ++ country]
        "tripadvisor_api_fallback"
  else
    .tripFallback country "restaurants" ["Traditional Restaurants in " ++ country]
      "tripadvisor_api_fallback"

/-- `DataRetrievalAgent._get_destinations_data`. -/
def getDestinationsData (f : FetchOracles) (country : String) : DataPayload :=
  if f.hasTrip then
    match f.destinationsFetch with
    | .error e => .errorPayload e
    | .ok (some raw) => .integrationResult raw
    | .ok none =>
      .tripFallback country "attractions" ["Must-Visit Destinations in " ++ country]
        "tripadvisor_api_fallback"
  else
    .tripFallback country "attractions" ["Must-Visit Destinations in " ++ country]
      "tripadvisor_api_fallback"

/-- `DataRetrievalAgent._get_food_data` (placeholder getter). -/
def getFoodData (country : String) : DataPayload :=
  .placeholder country "Food API not yet implemented" "food_api"

/-- `DataRetrievalAgent._get_movies_data` (placeholder getter). -/
def getMoviesData (country : String) : DataPayload :=
  .placeholder country "Movies API not yet implemented" "movies_api"

/-- `DataRetrievalAgent._get_government_data` (placeholder getter). -/
def getGovernmentData (country : String) : DataPayload :=
  .placeholder country "Government API not yet implemented" "government_api"

/-- `DataRetrievalAgent._get_festivals_data` (placeholder getter). -/
def getFestivalsData (country : String) : DataPayload :=
  .placeholder country "Festivals API not yet implemented" "festivals_api"

/-- Keys of `self.available_apis` in `DataRetrievalAgent.__init__`. -/
def availableApis : List String :=
  ["news", "music", "landmarks", "restaurants", "destinations",
   "food", "movies", "government", "festivals"]

/-- Dispatch on `self.available_apis[source]`; `none` for an unknown source. -/
def callApi (f : FetchOracles) (source country : String) : Option DataPayload :=
  if source = "news" then some (getNewsData f country)
  else if source = "music" then some (getMusicData f country)
  else if source = "landmarks" then some (getLandmarksData f country)
  else if source = "restaurants" then some (getRestaurantsData f country)
  else if source = "destinations" then some (getDestinationsData f country)
  else if source = "food" then some (getFoodData country)
  else if source = "movies" then some (getMoviesData country)
  else if source = "government" then some (getGovernmentData country)
  else if source = "festivals" then some (getFestivalsData country)
  else none

/-- Python-dict insertion: replace the value if the key is present (order
kept), else append. -/
def dictInsert {α : Type} (m : List (String × α)) (k : String) (v : α) :
    List (String × α) :=
  match m with
  | [] => [(k, v)]
  | (k₀, v₀) :: rest =>
    if k₀ = k then (k, v) :: rest else (k₀, v₀) :: dictInsert rest k v

/-- `DataRetrievalAgent._retrieve_data`: loop over the requested sources,
skipping unknown ones; every per-source fetch is total (the getters catch
their own exceptions), so the `except` inside the loop body is represented
by the getters' `errorPayload` results. -/
def retrieveData (f : FetchOracles) (analysis : Analysis) (country : String) :
    List (String × DataPayload) :=
  (analysis.data_sources_needed.getD []).foldl
    (fun retrieved source =>
      match callApi f source country with
      | some payload => dictInsert retrieved source payload
      | none => retrieved)
    []

/-- Agent-specific `data` payload of an `AgentResponse` (Python `Any`);
one constructor per shape actually produced by the embedded agents. -/
inductive AgentData where
  | planData (p : Plan)
  | corrections (c : Corrections)
  | retrieval (m : List (String × DataPayload))
  | clarification (question : String) (options : List String)
  | transl (t : TransData)
  | convo (c : ConvoData)
  | evalData (e : EvalData)
  | profileData (interaction_count : Nat) (last_interaction : Option String)
      (cultural_focus : List StrV) (preferred_languages : List String)
  | errData (msg : String)
deriving DecidableEq

/-- `AgentResponse` dataclass of `backend/core/base.py`. -/
structure AgentResponse where
  agent_name : String
  status : String
  data : AgentData
  confidence : ℚ := 0
  reasoning : String := ""
  next_actions : List String := []
deriving DecidableEq

/-- `data_response.data.get("clarification_question")`. -/
def AgentData.clarifQ : AgentData → Option String
  | .clarification q _ => some q
  | _ => none

/-- `data_response.data.get("suggested_options")`. -/
def AgentData.clarifOpts : AgentData → Option (List String)
  | .clarification _ opts => some opts
  | _ => none

/-- `conversation_response.data.get("response")`. -/
def AgentData.convoResponse : AgentData → Option String
  | .convo c => c.response
  | _ => none

/-- `OrchestratorAgent.process`: builds the plan via `_analyze_intent` (which
never raises) and wraps it in a success response; the `except` branch of
`process` is unreachable because its body is total. -/
def orchestratorProcess (query language : String) (ctx : CtxSnapshot)
    (o : Option Plan) : AgentResponse :=
  let plan := analyzeIntent query language ctx o
  { agent_name := "Orchestrator"
    status := "success"
    data := .planData plan
    confidence := plan.confidence.getD 0.8
    reasoning := plan.reasoning.getD ""
    next_actions := plan.agents_to_activate.getD [] }

/-- `LanguageCorrectionAgent.process`: `_analyze_language` converts any
transport or parse failure (oracle `none`) into its fallback dict, so the
agent's own `except` branch (status `"error"`) is unreachable and the
response status is always `"success"`. -/
def langCorrectionProcess (o : Option Corrections) : AgentResponse :=
  let corrections := o.getD fallbackCorrections
  { agent_name := "LanguageCorrection"
    status := "success"
    data := .corrections corrections
    confidence := corrections.confidence.getD 0.8
    reasoning := corrections.explanation.getD "" }

/-- `TranslationAgent._process_impl` (run through `BaseAgent.process`):
`_translate_with_context` converts any failure into its fallback dict, so the
status is always `"success"`. -/
def translationProcess (o : Option TransData) (text : String) : AgentResponse :=
  let translation := o.getD (fallbackTransData text)
  { agent_name := "Translation"
    status := "success"
    data := .transl translation
    confidence := translation.confidence.getD 0.8
    reasoning := translation.reasoning.getD "" }

/-- `ConversationAgent.process`: `_generate_response` converts any failure
into its fallback dict, so the status is always `"success"`. -/
def conversationProcess (o : Option ConvoData) : AgentResponse :=
  let response := o.getD fallbackConvoData
  { agent_name := "Conversation"
    status := "success"
    data := .convo response
    confidence := response.confidence.getD 0.8
    reasoning := response.reasoning.getD "" }

/-- `EvaluationAgent.process`: `_evaluate_interaction` converts any failure
into its fallback dict, so the status is always `"success"` (the Arize
branch is disabled when the integration is not importable). -/
def evaluationProcess (o : Option EvalData) : AgentResponse :=
  let evaluation := o.getD fallbackEvalData
  { agent_name := "Evaluation"
    status := "success"
    data := .evalData evaluation
    confidence := evaluation.confidence.getD 0.8
    reasoning := evaluation.reasoning.getD "" }

/-- `DataRetrievalAgent._process_impl` (run through `BaseAgent.process`):
on a clarification analysis the data dict is built from
`data_analysis["clarification_question"]` - a raising `KeyError` when the
parsed analysis set `needs_clarification` without that key, which the
surrounding `except` converts into the error response of lines 96-103. -/
def dataRetrievalProcess (f : FetchOracles) (oA : Option Analysis)
    (country : String) : AgentResponse :=
  let analysis := analyzeDataNeeds oA country
  if analysis.needs_clarification.getD false then
    match analysis.clarification_question with
    | some question =>
      { agent_name := "DataRetrieval"
        status := "clarification_needed"
        data := .clarification question (analysis.suggested_options.getD [])
        confidence := 0.9
        reasoning := "User query is ambiguous, need clarification" }
    | none =>
      { agent_name := "DataRetrieval"
        status := "error"
        data := .errData "KeyError: clarification_question"
        confidence := 0 }
  else
    { agent_name := "DataRetrieval"
      status := "success"
      data := .retrieval (retrieveData f analysis country)
      confidence := analysis.confidence.getD 0.8
      reasoning := analysis.reasoning.getD "" }

/-- The interaction dict built in `process_input` (`interaction_data`). -/
structure Interaction where
  query : String
  country : StrV
  language : String
  timestamp : String
deriving DecidableEq

/-- User profile kept by `PersonalizationAgent` (only the fields the
embedded code reads or writes). -/
structure Profile where
  interests : List String := []
  cultural_focus : List StrV := []
  preferred_languages : List String := []
  interaction_count : Nat := 0
  last_interaction : Option String := none
deriving DecidableEq

/-- `PersonalizationAgent._update_profile` (with the empty `preferences`
dict that `process_input` passes, whose `update` is a no-op). -/
def updateProfile (profiles : List (String × Profile)) (user_id : String)
    (interaction : Interaction) : List (String × Profile) × Profile :=
  let profile := (profiles.lookup user_id).getD {}
  let profile := { profile with
    interaction_count := profile.interaction_count + 1
    last_interaction := some interaction.timestamp }
  let profile :=
    if interaction.country ∈ profile.cultural_focus then profile
    else { profile with cultural_focus := profile.cultural_focus ++ [interaction.country] }
  let profile :=
    if interaction.language ∈ profile.preferred_languages then profile
    else { profile with preferred_languages := profile.preferred_languages ++ [interaction.language] }
  (dictInsert profiles user_id profile, profile)

/-- `PersonalizationAgent._process_impl` (run through `BaseAgent.process`):
pure dictionary bookkeeping, always a success response. -/
def personalizationProcess (profiles : List (String × Profile))
    (user_id : String) (interaction : Interaction) :
    List (String × Profile) × AgentResponse :=
  let (profiles₂, profile) := updateProfile profiles user_id interaction
  (profiles₂,
    { agent_name := "Personalization"
      status := "success"
      data := .profileData profile.interaction_count profile.last_interaction
        profile.cultural_focus profile.preferred_languages
      confidence := 0.9
      reasoning := "Profile updated successfully" })

/-- Per-user `ConversationContext` as stored in
`AgentOrchestrator.conversation_context`; the default value is the dict
`_get_user_context` substitutes for an unknown user. -/
structure UserContext where
  last_country : StrV := .null
  conversation_history : List HistEntry := []
  user_interests : List String := []
deriving DecidableEq

/-- `AgentOrchestrator._get_user_context`. -/
def getUserContext (store : List (String × UserContext)) (user_id : String) :
    UserContext :=
  (store.lookup user_id).getD {}

/-- The history entry appended by `_update_user_context`: intent under the
`"query"` key, `execution_plan.get("target_country")` (so `null` when the
key is absent), and the current timestamp. -/
def mkHistEntry (plan : Plan) (timestamp : String) : HistEntry :=
  { query := plan.intent.getD "unknown"
    country := plan.target_country.getD .null
    timestamp := timestamp }

/-- `AgentOrchestrator._update_user_context` (`core/orchestrator.py` lines
55-78): create the entry lazily, overwrite `last_country` for a truthy
non-sentinel country, append to the history and keep only the last 10
entries. -/
def updateUserContext (store : List (String × UserContext)) (user_id : String)
    (plan : Plan) (timestamp : String) : List (String × UserContext) :=
  let ctx := (store.lookup user_id).getD {}
  let target_country := plan.target_country.getD .null
  let ctx :=
    if target_country.truthy && !target_country.isSentinel then
      { ctx with last_country := target_country }
    else ctx
  let history := ctx.conversation_history ++ [mkHistEntry plan timestamp]
  let history :=
    if history.length > 10 then history.drop (history.length - 10) else history
  dictInsert store user_id { ctx with conversation_history := history }

/-- The `user_input` dict of `process_input` (only the keys the embedded
code reads). -/
structure UserInput where
  user_id : Option String := none
  query : Option String := none
  text : Option String := none
  language : Option String := none
  native_language : Option String := none
  audio_confidence : Option ℚ := none
  source_language : Option String := none
  target_language : Option String := none
deriving DecidableEq

/-- All external-call outcomes of one request.  `orch` is a function of the
context snapshot because the classifier's reply may depend on the context
included in its prompt.  `unexpected = some msg` models an exception raised
at some point inside the outer `try` of `process_input` by code outside
this embedding (every embedded callee is total); it routes to the final
`except Exception` handler of lines 235-244. -/
structure Oracles where
  orch : CtxSnapshot → Option Plan
  langCorr : Option Corrections := none
  dataAnalysis : Option Analysis := none
  fetch : FetchOracles
  transl : Option TransData := none
  convo : Option ConvoData := none
  evalOutcome : Option EvalData := none
  unexpected : Option String := none

/-- `plan.get("agents_to_activate", [])`. -/
def planAgents (plan : Plan) : List String :=
  plan.agents_to_activate.getD []

/-- `execution_plan.get("target_country", "unknown")`. -/
def drTargetCountry (plan : Plan) : StrV :=
  plan.target_country.getD (.str "unknown")

/-- `is_global_query` from `core/orchestrator.py` line 137, with Python
operator precedence: `(not target_country) or (target_country in
["none", "unknown", None] and "news" in data_sources)`. -/
def isGlobalQuery (plan : Plan) : Bool :=
  let target_country := drTargetCountry plan
  let data_sources := plan.data_sources.getD []
  !target_country.truthy ||
    (target_country.isSentinel && data_sources.contains "news")

/-- Condition of line 139: `target_country and target_country not in
["none", "unknown", None] or is_global_query`. -/
def drInvokeCond (plan : Plan) : Bool :=
  let target_country := drTargetCountry plan
  (target_country.truthy && !target_country.isSentinel) || isGlobalQuery plan

/-- `"country": target_country or "global"` of the data-retrieval input. -/
def drCountry (plan : Plan) : String :=
  match drTargetCountry plan with
  | .null => "global"
  | .str s => if s = "" then "global" else s

/-- The context block of `enhanced_input`: `last_country`, the last three
history entries, `user_interests`. -/
def mkSnapshot (ctx : UserContext) : CtxSnapshot :=
  { last_country := ctx.last_country
    conversation_history :=
      ctx.conversation_history.drop (ctx.conversation_history.length - 3)
    user_interests := ctx.user_interests }

/-- `interaction_data` built for the evaluation and personalization steps. -/
def mkInteraction (input : UserInput) (plan : Plan) : Interaction :=
  { query := input.query.getD ""
    country := drTargetCountry plan
    language := input.language.getD "en"
    timestamp := "now" }

/-- Condition under which the language-correction block runs
(`core/orchestrator.py` lines 120-121: the agent is in
`agents_to_activate` and a `"text"` key is present in `user_input`). -/
def lcCond (input : UserInput) (plan : Plan) : Prop :=
  "language_correction" ∈ planAgents plan ∧ input.text.isSome = true

instance (input : UserInput) (plan : Plan) : Decidable (lcCond input plan) :=
  inferInstanceAs (Decidable (_ ∧ _))

/-- Condition under which the data-retrieval block runs (lines 133-139:
the agent is in `agents_to_activate` and the country condition of line 139
holds). -/
def drCond (plan : Plan) : Prop :=
  "data_retrieval" ∈ planAgents plan ∧ drInvokeCond plan = true

instance (plan : Plan) : Decidable (drCond plan) :=
  inferInstanceAs (Decidable (_ ∧ _))

/-- Condition under which the translation block runs (line 163). -/
def trCond (plan : Plan) : Prop :=
  "translation" ∈ planAgents plan

instance (plan : Plan) : Decidable (trCond plan) :=
  inferInstanceAs (Decidable (_ ∈ _))

/-- Outcome of the agent-execution phase (step 2 of `process_input`):
either the data-retrieval clarification short-circuit of lines 148-157, or
the values the success path compiles into the final response.  The
`invoked` lists are a ghost trace of the `await <agent>.process(...)` call
sites executed, in program order (the Dispatcher's own `agents_activated`
accumulator is carried separately as `activated`). -/
inductive RunOutcome where
  | clarified (response : String) (options : List String) (invoked : List String)
  | completed (responses : List (String × AgentResponse)) (activated : List String)
      (invoked : List String) (profiles : List (String × Profile))
      (conversation_response : AgentResponse)
deriving DecidableEq

/-- Lines 162-209 of `core/orchestrator.py`: translation when planned, then
unconditionally conversation, evaluation and personalization. -/
def runTail (o : Oracles) (input : UserInput) (plan : Plan)
    (profiles : List (String × Profile))
    (responses : List (String × AgentResponse))
    (activated invoked : List String) : RunOutcome :=
  let responses :=
    if trCond plan then
      dictInsert responses "translation"
        (translationProcess o.transl (input.text.getD ""))
    else responses
  let activated := if trCond plan then activated ++ ["translation"] else activated
  let invoked := if trCond plan then invoked ++ ["translation"] else invoked
  let conversation_response := conversationProcess o.convo
  let responses := dictInsert responses "conversation" conversation_response
  let activated := activated ++ ["conversation"]
  let invoked := invoked ++ ["conversation"]
  let responses := dictInsert responses "evaluation" (evaluationProcess o.evalOutcome)
  let activated := activated ++ ["evaluation"]
  let invoked := invoked ++ ["evaluation"]
  let persOut :=
    personalizationProcess profiles (input.user_id.getD "anonymous")
      (mkInteraction input plan)
  let responses := dictInsert responses "personalization" persOut.2
  let activated := activated ++ ["personalization"]
  let invoked := invoked ++ ["personalization"]
  .completed responses activated invoked persOut.1 conversation_response

/-- Lines 115-209 of `core/orchestrator.py`: language correction when
`lcCond` holds (the nested `if`s of lines 120-121), then data retrieval
when `drCond` holds (the nested `if`s of lines 133-139, with the possible
clarification short-circuit of lines 147-157), then the tail agents. -/
def runAgents (o : Oracles) (input : UserInput) (plan : Plan)
    (profiles : List (String × Profile)) : RunOutcome :=
  let responses :=
    if lcCond input plan then
      dictInsert [] "language_correction" (langCorrectionProcess o.langCorr)
    else []
  let activated := if lcCond input plan then ["language_correction"] else []
  let invoked := if lcCond input plan then ["language_correction"] else []
  if drCond plan then
    let data_response := dataRetrievalProcess o.fetch o.dataAnalysis (drCountry plan)
    let invoked := invoked ++ ["data_retrieval"]
    if data_response.status = "clarification_needed" then
      .clarified
        (data_response.data.clarifQ.getD "Could you clarify what you're looking for?")
        (data_response.data.clarifOpts.getD []) invoked
    else
      runTail o input plan profiles
        (dictInsert responses "data_retrieval" data_response)
        (activated ++ ["data_retrieval"]) invoked
  else runTail o input plan profiles responses activated invoked

/-- The metadata dict of the final result; each branch of `process_input`
populates a different subset of keys. -/
structure Metadata where
  agents_activated : List String := []
  execution_plan : Option Plan := none
  agent_responses : Option (List (String × AgentResponse)) := none
  suggested_options : Option (List String) := none
  confidence : Option ℚ := none
  error : Option String := none
  timestamp : Option String := none
deriving DecidableEq

/-- The dict `process_input` returns. -/
structure FinalResult where
  status : String
  response : String
  metadata : Metadata
deriving DecidableEq

/-- Process-lifetime mutable state of `AgentOrchestrator`: the conversation
contexts plus the personalization agent's profile store. -/
structure OrchState where
  conversation_context : List (String × UserContext) := []
  user_profiles : List (String × Profile) := []
deriving DecidableEq

/-- Result, post-state and ghost invocation trace of one
`process_input` call. -/
structure DispatchOut where
  result : FinalResult
  state : OrchState
  invoked : List String
deriving DecidableEq

/-- The execution plan of a request: `_analyze_intent` applied to the
snapshot of the caller's pre-call context (this is
`orchestrator_response.data` in the source). -/
def requestPlan (o : Oracles) (input : UserInput) (st : OrchState) : Plan :=
  analyzeIntent (input.query.getD "") (input.language.getD "en")
    (mkSnapshot (getUserContext st.conversation_context (input.user_id.getD "anonymous")))
    (o.orch (mkSnapshot (getUserContext st.conversation_context (input.user_id.getD "anonymous"))))

/-- `AgentOrchestrator.process_input` (`core/orchestrator.py` lines
80-244).  `timestamp` stands for `datetime.now().isoformat()`.  The ghost
`invoked` field lists the `await <agent>.process(...)` calls executed, in
order. -/
def processInput (o : Oracles) (input : UserInput) (timestamp : String)
    (st : OrchState) : DispatchOut :=
  match o.unexpected with
  | some msg =>
    { result :=
        { status := "error"
          response := "I apologize, but I encountered an error. Please try again."
          metadata := { agents_activated := [], error := some msg } }
      state := st
      invoked := [] }
  | none =>
    let user_id := input.user_id.getD "anonymous"
    let execution_plan := requestPlan o input st
    if execution_plan.needs_clarification.getD false then
      { result :=
          { status := "clarification_needed"
            response :=
              execution_plan.clarifying_question.getD
                "Could you clarify what you're looking for?"
            metadata :=
              { agents_activated := ["orchestrator"]
                execution_plan := some execution_plan
                timestamp := some timestamp } }
        state := st
        invoked := ["orchestrator"] }
    else
      match runAgents o input execution_plan st.user_profiles with
      | .clarified response options invoked =>
        { result :=
            { status := "clarification_needed"
              response := response
              metadata :=
                { suggested_options := some options
                  agents_activated := ["orchestrator", "data_retrieval"]
                  execution_plan := some execution_plan } }
          state := st
          invoked := "orchestrator" :: invoked }
      | .completed responses activated invoked profiles conversation_response =>
        { result :=
            { status := "success"
              response := conversation_response.data.convoResponse.getD "I'm here to help!"
              metadata :=
                { agents_activated := activated
                  execution_plan := some execution_plan
                  agent_responses := some responses
                  confidence := some conversation_response.confidence } }
          state :=
            { conversation_context :=
                updateUserContext st.conversation_context user_id execution_plan timestamp
              user_profiles := profiles }
          invoked := "orchestrator" :: invoked }

/-! ## Dictionary lemmas -/

theorem lookup_dictInsert_eq {α : Type} (m : List (String × α)) (k : String)
    (v : α) : (dictInsert m k v).lookup k = some v := by
  induction m with
  | nil => simp [dictInsert, List.lookup]
  | cons hd tl ih =>
    obtain ⟨k₀, v₀⟩ := hd
    by_cases h : k₀ = k
    · simp [dictInsert, h, List.lookup]
    · have hne : (k == k₀) = false := by simp [Ne.symm h]
      simp [dictInsert, h, List.lookup, hne, ih]

theorem lookup_dictInsert_ne {α : Type} (m : List (String × α)) (k k' : String)
    (v : α) (h : k' ≠ k) : (dictInsert m k v).lookup k' = m.lookup k' := by
  have hkk : (k' == k) = false := by simp [h]
  induction m with
  | nil => simp [dictInsert, List.lookup, hkk]
  | cons hd tl ih =>
    obtain ⟨k₀, v₀⟩ := hd
    by_cases hk : k₀ = k
    · subst hk
      simp [dictInsert, List.lookup, hkk]
    · rcases hc : (k' == k₀) with _ | _ <;>
        simp [dictInsert, hk, List.lookup, hc, ih]

theorem mem_of_lookup_eq_some {α : Type} (m : List (String × α)) (k : String)
    (v : α) (h : m.lookup k = some v) : (k, v) ∈ m := by
  induction m with
  | nil => simp [List.lookup] at h
  | cons hd tl ih =>
    obtain ⟨k₀, v₀⟩ := hd
    by_cases hk : k = k₀
    · subst hk
      simp [List.lookup] at h
      subst h
      exact List.mem_cons_self _ _
    · have hne : (k == k₀) = false := by simp [hk]
      simp [List.lookup, hne] at h
      exact List.mem_cons_of_mem _ (ih h)

theorem forall_dictInsert {α : Type} (P : String × α → Prop)
    (m : List (String × α)) (k : String) (v : α)
    (hm : ∀ q ∈ m, P q) (hv : P (k, v)) : ∀ q ∈ dictInsert m k v, P q := by
  induction m with
  | nil => simpa [dictInsert]
  | cons hd tl ih =>
    obtain ⟨k₀, v₀⟩ := hd
    intro q hq
    by_cases hk : k₀ = k
    · simp only [dictInsert, if_pos hk] at hq
      rcases List.mem_cons.mp hq with heq | hq
      · rw [heq]; exact hv
      · exact hm q (List.mem_cons_of_mem _ hq)
    · simp only [dictInsert, if_neg hk] at hq
      rcases List.mem_cons.mp hq with heq | hq
      · rw [heq]; exact hm (k₀, v₀) (List.mem_cons_self _ _)
      · exact ih (fun q hq => hm q (List.mem_cons_of_mem _ hq)) q hq

/-! ## Shape of the agent-execution phase -/

/-- The data-retrieval clarification short-circuit fires (lines 147-157). -/
def drShortCircuit (o : Oracles) (plan : Plan) : Prop :=
  drCond plan ∧
    (dataRetrievalProcess o.fetch o.dataAnalysis (drCountry plan)).status =
      "clarification_needed"

instance (o : Oracles) (plan : Plan) : Decidable (drShortCircuit o plan) :=
  inferInstanceAs (Decidable (_ ∧ _))

/-- The `agents_activated` accumulator at the end of a completed (not
short-circuited) agent phase; also its ghost trace of agent invocations,
since on this path every invoked agent is recorded. -/
def completedActivated (input : UserInput) (plan : Plan) : List String :=
  ((if lcCond input plan then ["language_correction"] else []) ++
    (if drCond plan then ["data_retrieval"] else []) ++
    (if trCond plan then ["translation"] else [])) ++
  ["conversation", "evaluation", "personalization"]

/-- The `agent_responses` dict at the end of a completed agent phase. -/
def completedResponses (o : Oracles) (input : UserInput) (plan : Plan)
    (profiles : List (String × Profile)) : List (String × AgentResponse) :=
  let base₀ :=
    if lcCond input plan then
      dictInsert [] "language_correction" (langCorrectionProcess o.langCorr)
    else []
  let base₁ :=
    if drCond plan then
      dictInsert base₀ "data_retrieval"
        (dataRetrievalProcess o.fetch o.dataAnalysis (drCountry plan))
    else base₀
  let base₂ :=
    if trCond plan then
      dictInsert base₁ "translation" (translationProcess o.transl (input.text.getD ""))
    else base₁
  dictInsert
    (dictInsert
      (dictInsert base₂ "conversation" (conversationProcess o.convo))
      "evaluation" (evaluationProcess o.evalOutcome))
    "personalization"
    (personalizationProcess profiles (input.user_id.getD "anonymous")
      (mkInteraction input plan)).2

theorem runAgents_clarified_eq (o : Oracles) (input : UserInput) (plan : Plan)
    (profiles : List (String × Profile)) (hsc : drShortCircuit o plan) :
    runAgents o input plan profiles =
      .clarified
        ((dataRetrievalProcess o.fetch o.dataAnalysis (drCountry plan)).data.clarifQ.getD
          "Could you clarify what you're looking for?")
        ((dataRetrievalProcess o.fetch o.dataAnalysis (drCountry plan)).data.clarifOpts.getD [])
        ((if lcCond input plan then ["language_correction"] else []) ++ ["data_retrieval"]) := by
  obtain ⟨hdr, hst⟩ := hsc
  simp [runAgents, hdr, hst]

theorem runAgents_completed_eq (o : Oracles) (input : UserInput) (plan : Plan)
    (profiles : List (String × Profile)) (hsc : ¬ drShortCircuit o plan) :
    runAgents o input plan profiles =
      .completed (completedResponses o input plan profiles)
        (completedActivated input plan) (completedActivated input plan)
        ((personalizationProcess profiles (input.user_id.getD "anonymous")
          (mkInteraction input plan)).1)
        (conversationProcess o.convo) := by
  by_cases hdr : drCond plan
  · have hst :
        ¬ (dataRetrievalProcess o.fetch o.dataAnalysis (drCountry plan)).status =
          "clarification_needed" := fun h => hsc ⟨hdr, h⟩
    by_cases hlc : lcCond input plan <;> by_cases htr : trCond plan <;>
      simp [runAgents, runTail, completedResponses, completedActivated,
        hdr, hst, hlc, htr]
  · by_cases hlc : lcCond input plan <;> by_cases htr : trCond plan <;>
      simp [runAgents, runTail, completedResponses, completedActivated,
        hdr, hlc, htr]

/-! ## The four terminal branches of `process_input` -/

theorem processInput_unexpected_eq (o : Oracles) (input : UserInput)
    (ts : String) (st : OrchState) (msg : String)
    (h : o.unexpected = some msg) :
    processInput o input ts st =
      { result :=
          { status := "error"
            response := "I apologize, but I encountered an error. Please try again."
            metadata := { agents_activated := [], error := some msg } }
        state := st
        invoked := [] } := by
  unfold processInput
  rw [h]

theorem processInput_planClar_eq (o : Oracles) (input : UserInput)
    (ts : String) (st : OrchState)
    (hu : o.unexpected = none)
    (hc : (requestPlan o input st).needs_clarification.getD false = true) :
    processInput o input ts st =
      { result :=
          { status := "clarification_needed"
            response :=
              (requestPlan o input st).clarifying_question.getD
                "Could you clarify what you're looking for?"
            metadata :=
              { agents_activated := ["orchestrator"]
                execution_plan := some (requestPlan o input st)
                timestamp := some ts } }
        state := st
        invoked := ["orchestrator"] } := by
  unfold processInput
  rw [hu]
  simp [hc]

theorem processInput_drClar_eq (o : Oracles) (input : UserInput)
    (ts : String) (st : OrchState)
    (hu : o.unexpected = none)
    (hc : (requestPlan o input st).needs_clarification.getD false = false)
    (hsc : drShortCircuit o (requestPlan o input st)) :
    processInput o input ts st =
      { result :=
          { status := "clarification_needed"
            response :=
              (dataRetrievalProcess o.fetch o.dataAnalysis
                (drCountry (requestPlan o input st))).data.clarifQ.getD
                  "Could you clarify what you're looking for?"
            metadata :=
              { suggested_options :=
                  some ((dataRetrievalProcess o.fetch o.dataAnalysis
                    (drCountry (requestPlan o input st))).data.clarifOpts.getD [])
                agents_activated := ["orchestrator", "data_retrieval"]
                execution_plan := some (requestPlan o input st) } }
        state := st
        invoked :=
          "orchestrator" ::
            ((if lcCond input (requestPlan o input st) then ["language_correction"] else []) ++
              ["data_retrieval"]) } := by
  unfold processInput
  rw [hu]
  simp only [hc, Bool.false_eq_true, if_false,
    runAgents_clarified_eq o input (requestPlan o input st) st.user_profiles hsc]

theorem processInput_success_eq (o : Oracles) (input : UserInput)
    (ts : String) (st : OrchState)
    (hu : o.unexpected = none)
    (hc : (requestPlan o input st).needs_clarification.getD false = false)
    (hsc : ¬ drShortCircuit o (requestPlan o input st)) :
    processInput o input ts st =
      { result :=
          { status := "success"
            response :=
              (conversationProcess o.convo).data.convoResponse.getD "I'm here to help!"
            metadata :=
              { agents_activated := completedActivated input (requestPlan o input st)
                execution_plan := some (requestPlan o input st)
                agent_responses :=
                  some (completedResponses o input (requestPlan o input st) st.user_profiles)
                confidence := some (conversationProcess o.convo).confidence } }
        state :=
          { conversation_context :=
              updateUserContext st.conversation_context (input.user_id.getD "anonymous")
                (requestPlan o input st) ts
            user_profiles :=
              (personalizationProcess st.user_profiles (input.user_id.getD "anonymous")
                (mkInteraction input (requestPlan o input st))).1 }
        invoked := "orchestrator" :: completedActivated input (requestPlan o input st) } := by
  unfold processInput
  rw [hu]
  simp only [hc, Bool.false_eq_true, if_false,
    runAgents_completed_eq o input (requestPlan o input st) st.user_profiles hsc]

/-! ## Lookups into the completed `agent_responses` dict -/

theorem completedResponses_lookup_conversation (o : Oracles) (input : UserInput)
    (plan : Plan) (profiles : List (String × Profile)) :
    (completedResponses o input plan profiles).lookup "conversation" =
      some (conversationProcess o.convo) := by
  unfold completedResponses
  rw [lookup_dictInsert_ne _ _ _ _ (by decide), lookup_dictInsert_ne _ _ _ _ (by decide),
    lookup_dictInsert_eq]

theorem completedResponses_lookup_evaluation (o : Oracles) (input : UserInput)
    (plan : Plan) (profiles : List (String × Profile)) :
    (completedResponses o input plan profiles).lookup "evaluation" =
      some (evaluationProcess o.evalOutcome) := by
  unfold completedResponses
  rw [lookup_dictInsert_ne _ _ _ _ (by decide), lookup_dictInsert_eq]

theorem completedResponses_lookup_personalization (o : Oracles) (input : UserInput)
    (plan : Plan) (profiles : List (String × Profile)) :
    (completedResponses o input plan profiles).lookup "personalization" =
      some (personalizationProcess profiles (input.user_id.getD "anonymous")
        (mkInteraction input plan)).2 := by
  unfold completedResponses
  rw [lookup_dictInsert_eq]

theorem completedResponses_lookup_langCorr (o : Oracles) (input : UserInput)
    (plan : Plan) (profiles : List (String × Profile)) :
    (completedResponses o input plan profiles).lookup "language_correction" =
      (if lcCond input plan then some (langCorrectionProcess o.langCorr) else none) := by
  unfold completedResponses
  rw [lookup_dictInsert_ne _ _ _ _ (by decide), lookup_dictInsert_ne _ _ _ _ (by decide),
    lookup_dictInsert_ne _ _ _ _ (by decide)]
  by_cases htr : trCond plan <;> by_cases hdr : drCond plan <;>
    by_cases hlc : lcCond input plan <;>
      simp [htr, hdr, hlc, lookup_dictInsert_ne _ _ _ _ (by decide : "language_correction" ≠ "translation"),
        lookup_dictInsert_ne _ _ _ _ (by decide : "language_correction" ≠ "data_retrieval"),
        lookup_dictInsert_eq, List.lookup]

theorem completedResponses_lookup_translation (o : Oracles) (input : UserInput)
    (plan : Plan) (profiles : List (String × Profile)) :
    (completedResponses o input plan profiles).lookup "translation" =
      (if trCond plan then
        some (translationProcess o.transl (input.text.getD "")) else none) := by
  unfold completedResponses
  rw [lookup_dictInsert_ne _ _ _ _ (by decide), lookup_dictInsert_ne _ _ _ _ (by decide),
    lookup_dictInsert_ne _ _ _ _ (by decide)]
  by_cases htr : trCond plan <;> by_cases hdr : drCond plan <;>
    by_cases hlc : lcCond input plan <;>
      simp [htr, hdr, hlc, lookup_dictInsert_ne _ _ _ _ (by decide : "translation" ≠ "data_retrieval"),
        lookup_dictInsert_ne _ _ _ _ (by decide : "translation" ≠ "language_correction"),
        lookup_dictInsert_eq, List.lookup]

theorem completedResponses_lookup_dataRetrieval (o : Oracles) (input : UserInput)
    (plan : Plan) (profiles : List (String × Profile)) :
    (completedResponses o input plan profiles).lookup "data_retrieval" =
      (if drCond plan then
        some (dataRetrievalProcess o.fetch o.dataAnalysis (drCountry plan)) else none) := by
  unfold completedResponses
  rw [lookup_dictInsert_ne _ _ _ _ (by decide), lookup_dictInsert_ne _ _ _ _ (by decide),
    lookup_dictInsert_ne _ _ _ _ (by decide)]
  by_cases htr : trCond plan <;> by_cases hdr : drCond plan <;>
    by_cases hlc : lcCond input plan <;>
      simp [htr, hdr, hlc, lookup_dictInsert_ne _ _ _ _ (by decide : "data_retrieval" ≠ "translation"),
        lookup_dictInsert_ne _ _ _ _ (by decide : "data_retrieval" ≠ "language_correction"),
        lookup_dictInsert_eq, List.lookup]

/-! ## Concrete fixtures used by witnesses and counterexamples -/

/-- Provider oracles of a request on which every external fetch succeeds. -/
def fetchOk : FetchOracles :=
  { hasNews := true, hasSpotify := true, hasTrip := true
    newsFetch := .ok ["Art exhibition opens"]
    musicFetch := .ok ["City pop classics"]
    landmarksFetch := .ok (some "landmark records")
    restaurantsFetch := .ok (some "restaurant records")
    destinationsFetch := .ok (some "destination records") }

/-- A clear data-needs analysis naming the `food` capability. -/
def analysisFoodOk : Analysis :=
  { data_sources_needed := some ["food"], needs_clarification := some false
    confidence := some 0.9, reasoning := some "Query is clear and specific" }

/-- A data-needs analysis that requests clarification. -/
def analysisNeedsClar : Analysis :=
  { needs_clarification := some true
    clarification_question := some "Which aspect?"
    suggested_options := some ["Current news", "Food"]
    confidence := some 0.9 }

/-- A successful synthesized reply. -/
def convoOk : ConvoData :=
  { response := some "Here is what I found.", confidence := some 0.9 }

/-- A specific plan: food in Japan, via data retrieval then conversation. -/
def planFoodJapan : Plan :=
  { intent := some "cultural_info", target_country := some (.str "Japan")
    data_sources := some ["food"]
    agents_to_activate := some ["data_retrieval", "conversation"]
    confidence := some 0.9, needs_clarification := some false }

/-- A plan that asks for clarification. -/
def planClarifyJapan : Plan :=
  { intent := some "cultural_info", target_country := some (.str "Japan")
    data_sources := some []
    agents_to_activate := some ["conversation"]
    needs_clarification := some true
    clarifying_question := some "What aspect of Japan?" }

/-- A plan activating language correction and conversation only. -/
def planLangConvo : Plan :=
  { agents_to_activate := some ["language_correction", "conversation"]
    needs_clarification := some false }

/-- A plan activating language correction, data retrieval and conversation. -/
def planLangDr : Plan :=
  { target_country := some (.str "Japan")
    data_sources := some ["food"]
    agents_to_activate := some ["language_correction", "data_retrieval", "conversation"]
    needs_clarification := some false }

/-- A plan naming data retrieval with an *empty* target country and no
`news` data source. -/
def planEmptyCountry : Plan :=
  { target_country := some (.str ""), data_sources := some []
    agents_to_activate := some ["data_retrieval", "conversation"]
    needs_clarification := some false }

/-- A plan naming data retrieval with the sentinel country `"none"`. -/
def planSentinel : Plan :=
  { target_country := some (.str "none"), data_sources := some ["food"]
    agents_to_activate := some ["data_retrieval", "conversation"]
    needs_clarification := some false }

/-- A store whose user `u1` already has a full (10-entry) history. -/
def fullStore : List (String × UserContext) :=
  [("u1",
    { conversation_history :=
        List.replicate 10 { query := "q", country := .null, timestamp := "t" } })]

/-- A query-only input. -/
def inputJapan : UserInput :=
  { user_id := some "u1", query := some "food in Japan" }

/-- An input that also carries a `text` key. -/
def inputWithText : UserInput :=
  { user_id := some "u1", query := some "hola", text := some "hola" }

/-- Oracles of a fully successful food-in-Japan request. -/
def oSuccess : Oracles :=
  { orch := fun _ => some planFoodJapan, dataAnalysis := some analysisFoodOk
    fetch := fetchOk, convo := some convoOk }

/-- `planFoodJapan` with its agent list permuted (same membership). -/
def planFoodJapanPerm : Plan :=
  { planFoodJapan with agents_to_activate := some ["conversation", "data_retrieval"] }

/-- `oSuccess` with the permuted plan. -/
def oSuccessPerm : Oracles :=
  { orch := fun _ => some planFoodJapanPerm, dataAnalysis := some analysisFoodOk
    fetch := fetchOk, convo := some convoOk }

/-- Oracles of a request whose plan asks for clarification. -/
def oPlanClar : Oracles :=
  { orch := fun _ => some planClarifyJapan, fetch := fetchOk }

/-- Oracles of a request whose only failing external call is the
language-correction call (`langCorr = none`). -/
def oLangFail : Oracles :=
  { orch := fun _ => some planLangConvo, langCorr := none
    fetch := fetchOk, convo := some convoOk }

/-- Oracles of a request on which the Data Retrieval Selector asks for
clarification, after language correction already ran. -/
def oDrClar : Oracles :=
  { orch := fun _ => some planLangDr, langCorr := some fallbackCorrections
    dataAnalysis := some analysisNeedsClar, fetch := fetchOk, convo := some convoOk }

/-- Oracles of a request whose plan has an empty target country. -/
def oEmptyCountry : Oracles :=
  { orch := fun _ => some planEmptyCountry, dataAnalysis := some analysisFoodOk
    fetch := fetchOk, convo := some convoOk }

/-- Oracles of a request whose plan has the sentinel country `"none"`. -/
def oSentinel : Oracles :=
  { orch := fun _ => some planSentinel, dataAnalysis := some analysisFoodOk
    fetch := fetchOk, convo := some convoOk }

/-! ## Claims -/

/-- **C1**.  For every request whose execution plan has clarification set
(`needs_clarification` true, with its clarifying question present),
`process_input` returns a result with status `"clarification_needed"`
whose response is the plan's clarifying question and whose
`agents_activated` is exactly `["orchestrator"]`; the state is unchanged
and the invocation trace shows that no capability, translation, synthesis,
evaluation or personalization agent was invoked. -/
theorem orchestrator_clarification_short_circuit
    (o : Oracles) (input : UserInput) (ts : String) (st : OrchState) (q : String)
    (hu : o.unexpected = none)
    (hc : (requestPlan o input st).needs_clarification = some true)
    (hq : (requestPlan o input st).clarifying_question = some q) :
    processInput o input ts st =
      { result :=
          { status := "clarification_needed"
            response := q
            metadata :=
              { agents_activated := ["orchestrator"]
                execution_plan := some (requestPlan o input st)
                timestamp := some ts } }
        state := st
        invoked := ["orchestrator"] } := by
  rw [processInput_planClar_eq o input ts st hu (by rw [hc]; rfl), hq]
  rfl

theorem orchestrator_clarification_short_circuit_witness :
    (requestPlan oPlanClar inputJapan {}).needs_clarification = some true ∧
    processInput oPlanClar inputJapan "t0" {} =
      { result :=
          { status := "clarification_needed"
            response := "What aspect of Japan?"
            metadata :=
              { agents_activated := ["orchestrator"]
                execution_plan := some planClarifyJapan
                timestamp := some "t0" } }
        state := {}
        invoked := ["orchestrator"] } := by
  refine ⟨by decide, ?_⟩
  rw [orchestrator_clarification_short_circuit oPlanClar inputJapan "t0" {}
    "What aspect of Japan?" rfl (by decide) (by decide)]
  rfl

/-- **C7**.  For every query, language and context, when the Intent
Classifier's reasoning-service call suffers a transport failure or its
reply contains no parseable embedded JSON object (oracle `none`),
`_analyze_intent` returns the fixed fallback plan - `needs_clarification`
unset (so it reads as false), the default capabilities
`["government", "music", "food"]`, confidence 0.3 - and `process` wraps it
in a success response instead of raising (both functions are total and the
`except` branch of `process` is unreachable). -/
theorem classifier_fallback_on_failure (query language : String) (ctx : CtxSnapshot) :
    analyzeIntent query language ctx none = fallbackPlan ∧
    fallbackPlan.needs_clarification = none ∧
    fallbackPlan.needs_clarification.getD false = false ∧
    fallbackPlan.clarifying_question = none ∧
    fallbackPlan.confidence = some 0.3 ∧
    fallbackPlan.data_sources = some ["government", "music", "food"] ∧
    orchestratorProcess query language ctx none =
      { agent_name := "Orchestrator"
        status := "success"
        data := .planData fallbackPlan
        confidence := 0.3
        reasoning := "Fallback plan due to error"
        next_actions := ["cultural_context", "conversation"] } := by
  refine ⟨rfl, rfl, rfl, rfl, rfl, rfl, ?_⟩
  simp [orchestratorProcess, analyzeIntent, fallbackPlan]

/-- **C3** counterexample.  On a request whose plan activates language
correction before data retrieval (and whose input carries a `text` key),
language correction runs - it is in the invocation trace - but the
clarification short-circuit reports the hardcoded list
`["orchestrator", "data_retrieval"]`, so the metadata does *not* carry
"the agents activated so far": `"language_correction"` is missing. -/
theorem selector_clarification_agents_counterexample :
    (processInput oDrClar inputWithText "t0" {}).invoked =
      ["orchestrator", "language_correction", "data_retrieval"] ∧
    (processInput oDrClar inputWithText "t0" {}).result.metadata.agents_activated =
      ["orchestrator", "data_retrieval"] ∧
    "language_correction" ∉
      (processInput oDrClar inputWithText "t0" {}).result.metadata.agents_activated := by
  decide

/-- **C3** (amended).  When the Data Retrieval Selector returns a
`"clarification_needed"` outcome, `process_input` immediately returns a
result whose top-level status is `"clarification_needed"`, whose response
equals the selector's clarification question, whose metadata carries the
selector's `suggested_options` unchanged together with the *fixed* list
`["orchestrator", "data_retrieval"]` (which omits language correction when
that agent had already run), and no later agent (translation, conversation,
evaluation, personalization) is invoked; the stored context is unchanged. -/
theorem selector_clarification_surfaces
    (o : Oracles) (input : UserInput) (ts : String) (st : OrchState)
    (q : String) (opts : List String)
    (hu : o.unexpected = none)
    (hnc : (requestPlan o input st).needs_clarification.getD false = false)
    (hsc : drShortCircuit o (requestPlan o input st))
    (hdata : (dataRetrievalProcess o.fetch o.dataAnalysis
        (drCountry (requestPlan o input st))).data = .clarification q opts) :
    (processInput o input ts st).result.status = "clarification_needed" ∧
    (processInput o input ts st).result.response = q ∧
    (processInput o input ts st).result.metadata.suggested_options = some opts ∧
    (processInput o input ts st).result.metadata.agents_activated =
      ["orchestrator", "data_retrieval"] ∧
    (processInput o input ts st).state = st ∧
    "translation" ∉ (processInput o input ts st).invoked ∧
    "conversation" ∉ (processInput o input ts st).invoked ∧
    "evaluation" ∉ (processInput o input ts st).invoked ∧
    "personalization" ∉ (processInput o input ts st).invoked := by
  rw [processInput_drClar_eq o input ts st hu hnc hsc, hdata]
  refine ⟨rfl, rfl, rfl, rfl, rfl, ?_, ?_, ?_, ?_⟩ <;>
    by_cases hlc : lcCond input (requestPlan o input st) <;>
      simp [hlc]

theorem selector_clarification_surfaces_witness :
    (requestPlan oDrClar inputWithText {}).needs_clarification.getD false = false ∧
    drShortCircuit oDrClar (requestPlan oDrClar inputWithText {}) ∧
    (processInput oDrClar inputWithText "t0" {}).result.status = "clarification_needed" ∧
    (processInput oDrClar inputWithText "t0" {}).result.response = "Which aspect?" ∧
    (processInput oDrClar inputWithText "t0" {}).result.metadata.suggested_options =
      some ["Current news", "Food"] := by
  have h := selector_clarification_surfaces oDrClar inputWithText "t0" {}
    "Which aspect?" ["Current news", "Food"] rfl (by decide) (by decide) (by decide)
  exact ⟨by decide, by decide, h.1, h.2.1, h.2.2.1⟩

/-- **C9**.  The user's ConversationContext is read before intent
classification (on every non-error branch, the plan in the metadata equals
`requestPlan`, which is the classifier applied to the snapshot of the
pre-call store), and it is mutated only after a non-clarifying request
completes successfully: on the two clarification short-circuit branches and
on the error branch the whole state (in particular `last_country` and the
history) is unchanged, and on the success branch the conversation context
equals exactly one application of `_update_user_context`. -/
theorem context_mutation_discipline
    (o : Oracles) (input : UserInput) (ts : String) (st : OrchState) :
    ((processInput o input ts st).result.status = "clarification_needed" →
      (processInput o input ts st).state = st) ∧
    ((processInput o input ts st).result.status = "error" →
      (processInput o input ts st).state = st) ∧
    ((processInput o input ts st).result.status = "success" →
      (processInput o input ts st).state.conversation_context =
        updateUserContext st.conversation_context (input.user_id.getD "anonymous")
          (requestPlan o input st) ts) ∧
    (o.unexpected = none →
      (processInput o input ts st).result.metadata.execution_plan =
        some (requestPlan o input st)) := by
  cases hu : o.unexpected with
  | some msg =>
    rw [processInput_unexpected_eq o input ts st msg hu]
    refine ⟨fun h => by simp at h, fun _ => rfl, fun h => by simp at h, fun h => by simp at h⟩
  | none =>
    cases hnc : (requestPlan o input st).needs_clarification.getD false with
    | true =>
      rw [processInput_planClar_eq o input ts st hu hnc]
      exact ⟨fun _ => rfl, fun h => by simp at h, fun h => by simp at h, fun _ => rfl⟩
    | false =>
      by_cases hsc : drShortCircuit o (requestPlan o input st)
      · rw [processInput_drClar_eq o input ts st hu hnc hsc]
        exact ⟨fun _ => rfl, fun h => by simp at h, fun h => by simp at h, fun _ => rfl⟩
      · rw [processInput_success_eq o input ts st hu hnc hsc]
        exact ⟨fun h => by simp at h, fun h => by simp at h, fun _ => rfl, fun _ => rfl⟩

theorem context_mutation_discipline_witness :
    (processInput oSuccess inputJapan "t0" {}).result.status = "success" ∧
    (processInput oSuccess inputJapan "t0" {}).state.conversation_context =
      updateUserContext [] "u1" planFoodJapan "t0" := by
  have h := (context_mutation_discipline oSuccess inputJapan "t0" {}).2.2.1
  exact ⟨by decide, by rw [h (by decide)]; rfl⟩

/-- **C10** counterexample.  A plan that names `data_retrieval` with an
*empty* target country and no `"news"` data source still invokes the Data
Retrieval Selector (with country `"global"`), because Python operator
precedence makes `is_global_query` true for any falsy `target_country`:
`not target_country or (target_country in [...] and "news" in
data_sources)`. -/
theorem dr_empty_country_counterexample :
    planEmptyCountry.target_country = some (.str "") ∧
    "news" ∉ planEmptyCountry.data_sources.getD [] ∧
    "data_retrieval" ∈ planAgents planEmptyCountry ∧
    "data_retrieval" ∈ (processInput oEmptyCountry inputJapan "t0" {}).invoked ∧
    ((processInput oEmptyCountry inputJapan "t0" {}).result.metadata.agent_responses.getD
      []).lookup "data_retrieval" =
      some (dataRetrievalProcess fetchOk (some analysisFoodOk) "global") := by
  refine ⟨rfl, by decide, by decide, by decide, ?_⟩
  with_unfolding_all rfl

/-- **C10** (amended).  For every request whose plan names
`data_retrieval` but whose `target_country` is the sentinel `"none"`,
`"unknown"`, or absent, and whose `data_sources` do not include `"news"`,
the Dispatcher never invokes the Data Retrieval Selector and the final
result's metadata contains no `data_retrieval` entry - plan inclusion
alone does not make the agent run.  (An empty-string or null
`target_country` instead makes `is_global_query` true regardless of
`"news"`, by operator precedence, and the Selector *is* invoked with
country `"global"` - see the counterexample.) -/
theorem dr_skipped_for_sentinel_country
    (o : Oracles) (input : UserInput) (ts : String) (st : OrchState)
    (hu : o.unexpected = none)
    (hm : "data_retrieval" ∈ planAgents (requestPlan o input st))
    (hsent : (requestPlan o input st).target_country = some (.str "none") ∨
             (requestPlan o input st).target_country = some (.str "unknown") ∨
             (requestPlan o input st).target_country = none)
    (hnews : "news" ∉ (requestPlan o input st).data_sources.getD []) :
    "data_retrieval" ∉ (processInput o input ts st).invoked ∧
    ((processInput o input ts st).result.metadata.agent_responses.getD
      []).lookup "data_retrieval" = none := by
  have hcond : drInvokeCond (requestPlan o input st) = false := by
    unfold drInvokeCond isGlobalQuery drTargetCountry
    rcases hsent with h | h | h <;>
      rw [h] <;> simp [StrV.truthy, StrV.isSentinel, hnews]
  have hdrF : ¬ drCond (requestPlan o input st) := by
    rintro ⟨-, hc⟩
    rw [hcond] at hc
    exact Bool.false_ne_true hc
  cases hnc : (requestPlan o input st).needs_clarification.getD false with
  | true =>
    rw [processInput_planClar_eq o input ts st hu hnc]
    exact ⟨show "data_retrieval" ∉ ["orchestrator"] by decide, rfl⟩
  | false =>
    rw [processInput_success_eq o input ts st hu hnc (fun hsc => hdrF hsc.1)]
    constructor
    · show "data_retrieval" ∉ "orchestrator" :: completedActivated input (requestPlan o input st)
      unfold completedActivated
      by_cases hlc : lcCond input (requestPlan o input st) <;>
        by_cases htr : trCond (requestPlan o input st) <;>
          simp [hlc, htr, hdrF]
    · show (Option.getD (some _) []).lookup "data_retrieval" = none
      rw [Option.getD_some, completedResponses_lookup_dataRetrieval, if_neg hdrF]

theorem dr_skipped_for_sentinel_country_witness :
    "data_retrieval" ∈ planAgents (requestPlan oSentinel inputJapan {}) ∧
    "data_retrieval" ∉ (processInput oSentinel inputJapan "t0" {}).invoked ∧
    ((processInput oSentinel inputJapan "t0" {}).result.metadata.agent_responses.getD
      []).lookup "data_retrieval" = none := by
  have h := dr_skipped_for_sentinel_country oSentinel inputJapan "t0" {}
    rfl (by decide) (Or.inl (by decide)) (by decide)
  exact ⟨by decide, h.1, h.2⟩

/-! ## Context-store lemmas (C5) -/

/-- A sequence of `_update_user_context` calls for one user, oldest
first (each paired with its timestamp). -/
def applyUpdates (store : List (String × UserContext)) (user_id : String)
    (updates : List (Plan × String)) : List (String × UserContext) :=
  updates.foldl (fun s u => updateUserContext s user_id u.1 u.2) store

theorem update_history_eq (store : List (String × UserContext))
    (user_id : String) (plan : Plan) (ts : String) :
    (getUserContext (updateUserContext store user_id plan ts) user_id).conversation_history =
      (let h := (getUserContext store user_id).conversation_history ++ [mkHistEntry plan ts]
       if h.length > 10 then h.drop (h.length - 10) else h) := by
  unfold updateUserContext getUserContext
  rw [lookup_dictInsert_eq]
  by_cases hc :
      ((plan.target_country.getD .null).truthy &&
        !(plan.target_country.getD .null).isSentinel) = true <;>
    simp [hc]

theorem update_history_le (store : List (String × UserContext))
    (user_id : String) (plan : Plan) (ts : String) :
    (getUserContext (updateUserContext store user_id plan ts)
      user_id).conversation_history.length ≤ 10 := by
  rw [update_history_eq]
  by_cases hlen :
      ((getUserContext store user_id).conversation_history ++ [mkHistEntry plan ts]).length > 10
  · simp only [hlen, if_true, List.length_drop]
    omega
  · simp only [hlen, if_false]
    omega

theorem update_history_getLast (store : List (String × UserContext))
    (user_id : String) (plan : Plan) (ts : String) :
    (getUserContext (updateUserContext store user_id plan ts)
      user_id).conversation_history.getLast? = some (mkHistEntry plan ts) := by
  rw [update_history_eq]
  by_cases hlen :
      ((getUserContext store user_id).conversation_history ++ [mkHistEntry plan ts]).length > 10
  · simp only [hlen, if_true]
    have hle :
        ((getUserContext store user_id).conversation_history ++
            [mkHistEntry plan ts]).length - 10 ≤
          (getUserContext store user_id).conversation_history.length := by
      rw [List.length_append]
      simp only [List.length_singleton]
      omega
    rw [List.drop_append_of_le_length hle, List.getLast?_append]
    rfl
  · simp only [hlen, if_false]
    rw [List.getLast?_append]
    rfl

theorem applyUpdates_history_le (user_id : String) (updates : List (Plan × String))
    (store : List (String × UserContext))
    (h : (getUserContext store user_id).conversation_history.length ≤ 10) :
    (getUserContext (applyUpdates store user_id updates)
      user_id).conversation_history.length ≤ 10 := by
  induction updates generalizing store with
  | nil => exact h
  | cons u rest ih =>
    exact ih (updateUserContext store user_id u.1 u.2) (update_history_le _ _ _ _)

/-- **C5**.  After any sequence of `_update_user_context` operations on a
user's ConversationContext (starting from the empty store, as the code
creates contexts lazily), the conversation history holds at most 10
entries, the most recently appended entry is always last, and from a full
(10-entry) history one more update evicts exactly the oldest entry. -/
theorem conversation_history_bounded (user_id : String)
    (us : List (Plan × String)) (plan : Plan) (ts : String)
    (store₀ : List (String × UserContext))
    (h10 : (getUserContext store₀ user_id).conversation_history.length = 10) :
    (getUserContext (applyUpdates [] user_id (us ++ [(plan, ts)]))
      user_id).conversation_history.length ≤ 10 ∧
    (getUserContext (applyUpdates [] user_id (us ++ [(plan, ts)]))
      user_id).conversation_history.getLast? = some (mkHistEntry plan ts) ∧
    (getUserContext (updateUserContext store₀ user_id plan ts)
      user_id).conversation_history =
      (getUserContext store₀ user_id).conversation_history.tail ++
        [mkHistEntry plan ts] := by
  have happ : applyUpdates [] user_id (us ++ [(plan, ts)]) =
      updateUserContext (applyUpdates [] user_id us) user_id plan ts := by
    unfold applyUpdates
    rw [List.foldl_append]
    rfl
  refine ⟨?_, ?_, ?_⟩
  · rw [happ]
    exact update_history_le _ _ _ _
  · rw [happ]
    exact update_history_getLast _ _ _ _
  · rw [update_history_eq]
    have hlen :
        ((getUserContext store₀ user_id).conversation_history ++
          [mkHistEntry plan ts]).length > 10 := by
      rw [List.length_append, h10]
      simp only [List.length_singleton]
      omega
    simp only [hlen, if_true]
    have hone :
        ((getUserContext store₀ user_id).conversation_history ++
          [mkHistEntry plan ts]).length - 10 = 1 := by
      rw [List.length_append, h10]
      simp only [List.length_singleton]
    rw [hone, List.drop_append_of_le_length (by rw [h10]; omega), List.drop_one]

theorem conversation_history_bounded_witness :
    (getUserContext fullStore "u1").conversation_history.length = 10 ∧
    (getUserContext (applyUpdates [] "u1"
      (List.replicate 11 (planFoodJapan, "t"))) "u1").conversation_history.length ≤ 10 ∧
    (getUserContext (applyUpdates [] "u1"
      (List.replicate 11 (planFoodJapan, "t"))) "u1").conversation_history.getLast? =
      some (mkHistEntry planFoodJapan "t") ∧
    (getUserContext (updateUserContext fullStore "u1" planFoodJapan "t")
      "u1").conversation_history =
      (getUserContext fullStore "u1").conversation_history.tail ++
        [mkHistEntry planFoodJapan "t"] := by
  have h := conversation_history_bounded "u1"
    (List.replicate 10 (planFoodJapan, "t")) planFoodJapan "t" fullStore (by decide)
  have hrep : List.replicate 10 (planFoodJapan, "t") ++ [(planFoodJapan, "t")] =
      List.replicate 11 (planFoodJapan, "t") := (List.replicate_succ' _ _).symm
  rw [hrep] at h
  exact ⟨by decide, h.1, h.2.1, h.2.2⟩

/-! ## Data-retrieval loop lemmas (C6) -/

theorem callApi_isSome (f : FetchOracles) (country source : String)
    (ha : source ∈ availableApis) : (callApi f source country).isSome = true := by
  simp only [availableApis, List.mem_cons, List.not_mem_nil, or_false] at ha
  rcases ha with rfl | rfl | rfl | rfl | rfl | rfl | rfl | rfl | rfl <;> rfl

theorem retrieve_fold_lookup (f : FetchOracles) (country source : String)
    (payload : DataPayload) (hp : callApi f source country = some payload) :
    ∀ (sources : List String) (acc : List (String × DataPayload)),
    (source ∈ sources ∨ acc.lookup source = some payload) →
    ((sources.foldl
        (fun retrieved source =>
          match callApi f source country with
          | some payload => dictInsert retrieved source payload
          | none => retrieved)
        acc).lookup source) = some payload := by
  intro sources
  induction sources with
  | nil =>
    intro acc h
    rcases h with h | h
    · simp at h
    · simpa using h
  | cons s rest ih =>
    intro acc h
    rw [List.foldl_cons]
    by_cases hss : source = s
    · subst hss
      rw [hp]
      exact ih _ (Or.inr (lookup_dictInsert_eq _ _ _))
    · have hstep :
          ∀ acc' : List (String × DataPayload), acc'.lookup source = some payload →
            ((match callApi f s country with
              | some payload => dictInsert acc' s payload
              | none => acc') : List (String × DataPayload)).lookup source = some payload := by
        intro acc' hacc
        cases hca : callApi f s country with
        | none => simpa using hacc
        | some pl =>
          simp only
          rw [lookup_dictInsert_ne _ _ _ _ hss]
          exact hacc
      rcases h with h | h
      · rcases List.mem_cons.mp h with heq | h
        · exact absurd heq hss
        · exact ih _ (Or.inl h)
      · exact ih _ (Or.inr (hstep acc h))

/-- **C6** (amended).  For every capability named in the data-needs
analysis that is one of the supported capability keys, the Selector's
returned mapping contains an entry for that key whose payload is exactly
what the per-capability getter produced - an `errorPayload` when the
provider call raised, or the getter's documented fallback/placeholder
payload - so a failing provider never results in the key being omitted
from the mapping. -/
theorem retrieval_key_never_omitted (f : FetchOracles) (analysis : Analysis)
    (country source : String)
    (hs : source ∈ analysis.data_sources_needed.getD [])
    (ha : source ∈ availableApis) :
    (retrieveData f analysis country).lookup source = callApi f source country ∧
    ((retrieveData f analysis country).lookup source).isSome = true := by
  obtain ⟨payload, hp⟩ := Option.isSome_iff_exists.mp (callApi_isSome f country source ha)
  have hfold := retrieve_fold_lookup f country source payload hp
    (analysis.data_sources_needed.getD []) [] (Or.inl hs)
  unfold retrieveData
  rw [hfold, hp]
  exact ⟨rfl, rfl⟩

/-- Provider oracles on which the news fetch raises. -/
def fetchNewsFail : FetchOracles :=
  { fetchOk with newsFetch := .error "boom" }

/-- An analysis naming the `news` and `food` capabilities. -/
def analysisNewsFood : Analysis :=
  { data_sources_needed := some ["news", "food"], needs_clarification := some false
    confidence := some 0.9 }

theorem retrieval_key_never_omitted_witness :
    "news" ∈ analysisNewsFood.data_sources_needed.getD [] ∧
    "news" ∈ availableApis ∧
    (retrieveData fetchNewsFail analysisNewsFood "Japan").lookup "news" =
      callApi fetchNewsFail "news" "Japan" ∧
    ((retrieveData fetchNewsFail analysisNewsFood "Japan").lookup "news").isSome = true := by
  have h := retrieval_key_never_omitted fetchNewsFail analysisNewsFood "Japan" "news"
    (by decide) (by decide)
  exact ⟨by decide, by decide, h.1, h.2⟩

/-- Whether a payload is the generic payload the spec documents for a
failing provider.  Modelled from the spec: "a failing provider yields a
documented generic payload `(subject, message: "not available")` for that
key"; no payload of this shape occurs anywhere in
`backend/agents/data_retrieval.py`. -/
def isSpecGenericPayload : DataPayload → Bool
  | .placeholder _ message _ => message = "not available"
  | _ => false

/-- **C6** counterexample.  When the news provider raises, the mapping
still contains the `news` key, but its payload is the error payload
`(error: message)` from the `except` branch - not the spec's documented
generic payload `(subject, message: "not available")`. -/
theorem retrieval_generic_payload_counterexample :
    (retrieveData fetchNewsFail analysisNewsFood "Japan").lookup "news" =
      some (.errorPayload "boom") ∧
    isSpecGenericPayload (.errorPayload "boom") = false := by
  decide

/-! ## Per-agent outcome lemmas and failure isolation (C2) -/

theorem completedResponses_forall (o : Oracles) (input : UserInput) (plan : Plan)
    (profiles : List (String × Profile)) (P : AgentResponse → Prop)
    (h₁ : P (langCorrectionProcess o.langCorr))
    (h₂ : P (dataRetrievalProcess o.fetch o.dataAnalysis (drCountry plan)))
    (h₃ : P (translationProcess o.transl (input.text.getD "")))
    (h₄ : P (conversationProcess o.convo))
    (h₅ : P (evaluationProcess o.evalOutcome))
    (h₆ : P (personalizationProcess profiles (input.user_id.getD "anonymous")
      (mkInteraction input plan)).2) :
    ∀ q ∈ completedResponses o input plan profiles, P q.2 := by
  unfold completedResponses
  by_cases hlc : lcCond input plan <;> by_cases hdr : drCond plan <;>
    by_cases htr : trCond plan <;>
      simp only [hlc, hdr, htr, if_true, if_false, eq_self_iff_true] <;>
      · refine forall_dictInsert _ _ _ _ (forall_dictInsert _ _ _ _
          (forall_dictInsert _ _ _ _ ?_ h₄) h₅) h₆
        repeat
          first
          | exact fun q hq => absurd hq (List.not_mem_nil q)
          | refine forall_dictInsert _ _ _ _ ?_ (by assumption)

theorem dataRetrievalProcess_error_low_conf (f : FetchOracles)
    (oA : Option Analysis) (country : String)
    (h : (dataRetrievalProcess f oA country).status = "error") :
    (dataRetrievalProcess f oA country).confidence ≤ 0.3 := by
  revert h
  simp only [dataRetrievalProcess]
  split
  · split
    · intro h
      simp at h
    · intro h
      norm_num
  · intro h
    simp at h

/-- **C2** (amended).  For every request that does not hit the outer
exception handler: the final status is `"success"` or
`"clarification_needed"` - never `"error"` - and no agent failure
propagates (`processInput` is total); every outcome recorded in
`metadata.agent_responses` with status `"error"` carries confidence
≤ 0.3; and when an individual agent's external call fails (oracle
`none`), that agent's recorded outcome - when one is recorded - carries
confidence ≤ 0.3, though for the LLM-backed agents it is a *success*
fallback outcome rather than a status-"error" one, and a failing
data-needs analysis short-circuits to clarification with no
`data_retrieval` entry recorded at all. -/
theorem single_failure_isolation (o : Oracles) (input : UserInput) (ts : String)
    (st : OrchState) (hu : o.unexpected = none) :
    ((processInput o input ts st).result.status = "success" ∨
      (processInput o input ts st).result.status = "clarification_needed") ∧
    (∀ k resp,
      ((processInput o input ts st).result.metadata.agent_responses.getD []).lookup k =
        some resp → resp.status = "error" → resp.confidence ≤ 0.3) ∧
    (o.langCorr = none → ∀ resp,
      ((processInput o input ts st).result.metadata.agent_responses.getD []).lookup
        "language_correction" = some resp → resp.confidence ≤ 0.3) ∧
    (o.transl = none → ∀ resp,
      ((processInput o input ts st).result.metadata.agent_responses.getD []).lookup
        "translation" = some resp → resp.confidence ≤ 0.3) ∧
    (o.convo = none → ∀ resp,
      ((processInput o input ts st).result.metadata.agent_responses.getD []).lookup
        "conversation" = some resp → resp.confidence ≤ 0.3) ∧
    (o.evalOutcome = none → ∀ resp,
      ((processInput o input ts st).result.metadata.agent_responses.getD []).lookup
        "evaluation" = some resp → resp.confidence ≤ 0.3) ∧
    (o.dataAnalysis = none →
      ((processInput o input ts st).result.metadata.agent_responses.getD []).lookup
        "data_retrieval" = none) := by
  cases hnc : (requestPlan o input st).needs_clarification.getD false with
  | true =>
    rw [processInput_planClar_eq o input ts st hu hnc]
    refine ⟨Or.inr rfl, ?_, ?_, ?_, ?_, ?_, ?_⟩ <;>
      · intros
        simp_all [List.lookup]
  | false =>
    by_cases hsc : drShortCircuit o (requestPlan o input st)
    · rw [processInput_drClar_eq o input ts st hu hnc hsc]
      refine ⟨Or.inr rfl, ?_, ?_, ?_, ?_, ?_, ?_⟩ <;>
        · intros
          simp_all [List.lookup]
    · rw [processInput_success_eq o input ts st hu hnc hsc]
      refine ⟨Or.inl rfl, ?_, ?_, ?_, ?_, ?_, ?_⟩
      · intro k resp hres herr
        have hmem := mem_of_lookup_eq_some _ _ _
          (show (completedResponses o input (requestPlan o input st)
            st.user_profiles).lookup k = some resp from hres)
        refine completedResponses_forall o input (requestPlan o input st) st.user_profiles
          (fun r => r.status = "error" → r.confidence ≤ 0.3)
          ?_ ?_ ?_ ?_ ?_ ?_ (k, resp) hmem herr
        · intro h; simp [langCorrectionProcess] at h
        · exact dataRetrievalProcess_error_low_conf _ _ _
        · intro h; simp [translationProcess] at h
        · intro h; simp [conversationProcess] at h
        · intro h; simp [evaluationProcess] at h
        · intro h; simp [personalizationProcess, updateProfile] at h
      · intro hfail resp hres
        rw [show ((some (completedResponses o input (requestPlan o input st)
            st.user_profiles)).getD []) = completedResponses o input
            (requestPlan o input st) st.user_profiles from rfl,
          completedResponses_lookup_langCorr] at hres
        by_cases h : lcCond input (requestPlan o input st)
        · rw [if_pos h, Option.some_inj] at hres
          rw [← hres, hfail]
          norm_num [langCorrectionProcess, fallbackCorrections]
        · rw [if_neg h] at hres
          cases hres
      · intro hfail resp hres
        rw [show ((some (completedResponses o input (requestPlan o input st)
            st.user_profiles)).getD []) = completedResponses o input
            (requestPlan o input st) st.user_profiles from rfl,
          completedResponses_lookup_translation] at hres
        by_cases h : trCond (requestPlan o input st)
        · rw [if_pos h, Option.some_inj] at hres
          rw [← hres, hfail]
          norm_num [translationProcess, fallbackTransData]
        · rw [if_neg h] at hres
          cases hres
      · intro hfail resp hres
        rw [show ((some (completedResponses o input (requestPlan o input st)
            st.user_profiles)).getD []) = completedResponses o input
            (requestPlan o input st) st.user_profiles from rfl,
          completedResponses_lookup_conversation, Option.some_inj] at hres
        rw [← hres, hfail]
        norm_num [conversationProcess, fallbackConvoData]
      · intro hfail resp hres
        rw [show ((some (completedResponses o input (requestPlan o input st)
            st.user_profiles)).getD []) = completedResponses o input
            (requestPlan o input st) st.user_profiles from rfl,
          completedResponses_lookup_evaluation, Option.some_inj] at hres
        rw [← hres, hfail]
        norm_num [evaluationProcess, fallbackEvalData]
      · intro hfail
        by_cases hdr : drCond (requestPlan o input st)
        · exact absurd ⟨hdr, by rw [hfail]; rfl⟩ hsc
        · rw [show ((some (completedResponses o input (requestPlan o input st)
              st.user_profiles)).getD []) = completedResponses o input
              (requestPlan o input st) st.user_profiles from rfl,
            completedResponses_lookup_dataRetrieval, if_neg hdr]

theorem single_failure_isolation_witness :
    oLangFail.langCorr = none ∧
    ((processInput oLangFail inputWithText "t0" {}).result.status = "success" ∨
      (processInput oLangFail inputWithText "t0" {}).result.status =
        "clarification_needed") := by
  exact ⟨rfl, (single_failure_isolation oLangFail inputWithText "t0" {} rfl).1⟩

/-- **C2** counterexample.  On a request whose only failing external call
is the language-correction call, the recorded outcome for
`language_correction` has status `"success"` (the transport failure is
absorbed inside `_analyze_language` into the fallback corrections dict,
confidence 0.3) - not status `"error"` as the claim states - while the
final status is still `"success"`. -/
theorem single_failure_error_status_counterexample :
    oLangFail.langCorr = none ∧
    (processInput oLangFail inputWithText "t0" {}).result.status = "success" ∧
    (((processInput oLangFail inputWithText "t0" {}).result.metadata.agent_responses.getD
      []).lookup "language_correction").map AgentResponse.status = some "success" ∧
    (((processInput oLangFail inputWithText "t0" {}).result.metadata.agent_responses.getD
      []).lookup "language_correction").map AgentResponse.confidence = some 0.3 := by
  refine ⟨rfl, by decide, by decide, ?_⟩
  with_unfolding_all rfl

/-! ## Synthesis tail (C8) -/

theorem drop_last_three (pre : List String) :
    ((pre ++ ["conversation", "evaluation", "personalization"]).drop
      ((pre ++ ["conversation", "evaluation", "personalization"]).length - 3)) =
      ["conversation", "evaluation", "personalization"] := by
  have h : (pre ++ ["conversation", "evaluation", "personalization"]).length - 3 =
      pre.length := by
    rw [List.length_append]
    simp
  rw [h, List.drop_left]

/-- **C8**.  For every request that reaches response synthesis (no
clarification short-circuit fired), the conversation, evaluation and
personalization agents are the last three invocations in that order, the
final status is `"success"`, and the final response equals the
synthesizer's response - a function of the conversation outcome alone.
The evaluation and personalization outcomes appear in
`metadata.agent_responses` only: replacing the evaluation outcome, or the
personalization agent's profile store, changes neither the status nor the
response. -/
theorem synthesis_tail_metadata_only (o : Oracles) (input : UserInput)
    (ts : String) (st : OrchState)
    (hu : o.unexpected = none)
    (hnc : (requestPlan o input st).needs_clarification.getD false = false)
    (hsc : ¬ drShortCircuit o (requestPlan o input st)) :
    (processInput o input ts st).result.status = "success" ∧
    (processInput o input ts st).result.response =
      (conversationProcess o.convo).data.convoResponse.getD "I'm here to help!" ∧
    ((processInput o input ts st).invoked).drop
      ((processInput o input ts st).invoked.length - 3) =
      ["conversation", "evaluation", "personalization"] ∧
    ((processInput o input ts st).result.metadata.agent_responses.getD []).lookup
      "evaluation" = some (evaluationProcess o.evalOutcome) ∧
    ((processInput o input ts st).result.metadata.agent_responses.getD []).lookup
      "personalization" =
      some (personalizationProcess st.user_profiles (input.user_id.getD "anonymous")
        (mkInteraction input (requestPlan o input st))).2 ∧
    (∀ e, (processInput { o with evalOutcome := e } input ts st).result.status =
        "success" ∧
      (processInput { o with evalOutcome := e } input ts st).result.response =
        (processInput o input ts st).result.response) ∧
    (∀ profs,
      (processInput o input ts { st with user_profiles := profs }).result.status =
        "success" ∧
      (processInput o input ts { st with user_profiles := profs }).result.response =
        (processInput o input ts st).result.response) := by
  refine ⟨?_, ?_, ?_, ?_, ?_, ?_, ?_⟩
  · rw [processInput_success_eq o input ts st hu hnc hsc]
  · rw [processInput_success_eq o input ts st hu hnc hsc]
  · have hshape : (processInput o input ts st).invoked =
        ("orchestrator" ::
          ((if lcCond input (requestPlan o input st) then ["language_correction"] else []) ++
            (if drCond (requestPlan o input st) then ["data_retrieval"] else []) ++
            (if trCond (requestPlan o input st) then ["translation"] else []))) ++
          ["conversation", "evaluation", "personalization"] := by
      rw [processInput_success_eq o input ts st hu hnc hsc]
      simp [completedActivated]
    rw [hshape, drop_last_three]
  · rw [processInput_success_eq o input ts st hu hnc hsc]
    exact completedResponses_lookup_evaluation o input (requestPlan o input st)
      st.user_profiles
  · rw [processInput_success_eq o input ts st hu hnc hsc]
    exact completedResponses_lookup_personalization o input (requestPlan o input st)
      st.user_profiles
  · intro e
    constructor
    · rw [processInput_success_eq { o with evalOutcome := e } input ts st hu hnc hsc]
    · rw [processInput_success_eq { o with evalOutcome := e } input ts st hu hnc hsc,
        processInput_success_eq o input ts st hu hnc hsc]
  · intro profs
    constructor
    · rw [processInput_success_eq o input ts { st with user_profiles := profs } hu hnc hsc]
    · rw [processInput_success_eq o input ts { st with user_profiles := profs } hu hnc hsc,
        processInput_success_eq o input ts st hu hnc hsc]

theorem synthesis_tail_metadata_only_witness :
    (requestPlan oSuccess inputJapan {}).needs_clarification.getD false = false ∧
    (processInput oSuccess inputJapan "t0" {}).result.status = "success" ∧
    (processInput oSuccess inputJapan "t0" {}).result.response = "Here is what I found." ∧
    ((processInput oSuccess inputJapan "t0" {}).invoked).drop
      ((processInput oSuccess inputJapan "t0" {}).invoked.length - 3) =
      ["conversation", "evaluation", "personalization"] := by
  have h := synthesis_tail_metadata_only oSuccess inputJapan "t0" {} rfl
    (by decide) (by decide)
  exact ⟨by decide, h.1, by rw [h.2.1]; rfl, h.2.2.1⟩

/-! ## Fixed topological order (C4) -/

/-- The fixed catalog order in which the Dispatcher's code invokes the
capability agents (`core/orchestrator.py` lines 115-209, in program
order). -/
def agentCatalogOrder : List String :=
  ["language_correction", "data_retrieval", "translation",
   "conversation", "evaluation", "personalization"]

/-- Two oracle sets that agree on everything except the classifier call. -/
def Oracles.sameNonOrch (o o' : Oracles) : Prop :=
  o.langCorr = o'.langCorr ∧ o.dataAnalysis = o'.dataAnalysis ∧
  o.fetch = o'.fetch ∧ o.transl = o'.transl ∧ o.convo = o'.convo ∧
  o.evalOutcome = o'.evalOutcome ∧ o.unexpected = o'.unexpected

/-- Two plans equal in every field except that `agents_to_activate` may
list the same agent names in a different order (same membership). -/
def Plan.sameUpToAgentOrder (p p' : Plan) : Prop :=
  p.intent = p'.intent ∧
  p.target_country = p'.target_country ∧
  p.data_sources = p'.data_sources ∧
  p.requires_voice = p'.requires_voice ∧
  p.confidence = p'.confidence ∧
  p.reasoning = p'.reasoning ∧
  p.needs_clarification = p'.needs_clarification ∧
  p.clarifying_question = p'.clarifying_question ∧
  ∀ a : String, a ∈ planAgents p ↔ a ∈ planAgents p'

theorem completedActivated_sublist (input : UserInput) (plan : Plan) :
    (completedActivated input plan).Sublist agentCatalogOrder := by
  unfold completedActivated agentCatalogOrder
  by_cases h₁ : lcCond input plan <;> by_cases h₂ : drCond plan <;>
    by_cases h₃ : trCond plan <;>
      simp only [h₁, h₂, h₃, if_true, if_false, eq_self_iff_true, ite_true, ite_false] <;>
        decide

/-- **C4**.  The Dispatcher invokes the included agents in one fixed
topological order - language correction, data retrieval, translation,
synthesis (conversation), evaluation, personalization - independent of
the order agent names appear in the plan's `agents_to_activate` list:
on a successful run `agents_activated` is a sublist of the fixed catalog
order, and two runs whose oracles differ only in the ordering of the
plan's agent list produce identical `agents_activated`, statuses and
invocation traces (determinism in the plan is immediate because
`processInput` is a function of its inputs). -/
theorem dispatcher_fixed_topological_order
    (o o' : Oracles) (input : UserInput) (ts : String) (st : OrchState)
    (hsame : Oracles.sameNonOrch o o')
    (hplan : Plan.sameUpToAgentOrder (requestPlan o input st) (requestPlan o' input st)) :
    ((processInput o input ts st).result.status = "success" →
      ((processInput o input ts st).result.metadata.agents_activated).Sublist
        agentCatalogOrder) ∧
    (processInput o input ts st).result.metadata.agents_activated =
      (processInput o' input ts st).result.metadata.agents_activated ∧
    (processInput o input ts st).result.status =
      (processInput o' input ts st).result.status ∧
    (processInput o input ts st).invoked = (processInput o' input ts st).invoked := by
  obtain ⟨hI, hTC, hDS, hRV, hC, hR, hNC, hCQ, hmem⟩ := hplan
  obtain ⟨hlcO, hdaO, hfO, htrO, hcvO, hevO, hunO⟩ := hsame
  have hmemEq : ∀ a : String,
      (a ∈ planAgents (requestPlan o input st)) =
        (a ∈ planAgents (requestPlan o' input st)) := fun a => propext (hmem a)
  have hlcCeq : lcCond input (requestPlan o input st) =
      lcCond input (requestPlan o' input st) := by
    unfold lcCond
    rw [hmemEq]
  have htrCeq : trCond (requestPlan o input st) =
      trCond (requestPlan o' input st) := by
    unfold trCond
    rw [hmemEq]
  have hicEq : drInvokeCond (requestPlan o input st) =
      drInvokeCond (requestPlan o' input st) := by
    unfold drInvokeCond isGlobalQuery drTargetCountry
    rw [hTC, hDS]
  have hdrCeq : drCond (requestPlan o input st) =
      drCond (requestPlan o' input st) := by
    unfold drCond
    rw [hmemEq, hicEq]
  cases hu : o.unexpected with
  | some msg =>
    have hu' : o'.unexpected = some msg := by rw [← hunO]; exact hu
    rw [processInput_unexpected_eq o input ts st msg hu,
      processInput_unexpected_eq o' input ts st msg hu']
    exact ⟨fun h => by simp at h, rfl, rfl, rfl⟩
  | none =>
    have hu' : o'.unexpected = none := by rw [← hunO]; exact hu
    cases hnc : (requestPlan o input st).needs_clarification.getD false with
    | true =>
      have hnc' : (requestPlan o' input st).needs_clarification.getD false = true := by
        rw [← hNC]; exact hnc
      rw [processInput_planClar_eq o input ts st hu hnc,
        processInput_planClar_eq o' input ts st hu' hnc']
      exact ⟨fun h => by simp at h, rfl, rfl, rfl⟩
    | false =>
      have hnc' : (requestPlan o' input st).needs_clarification.getD false = false := by
        rw [← hNC]; exact hnc
      have hcty : drCountry (requestPlan o input st) =
          drCountry (requestPlan o' input st) := by
        unfold drCountry drTargetCountry
        rw [hTC]
      have hdrp : dataRetrievalProcess o.fetch o.dataAnalysis
          (drCountry (requestPlan o input st)) =
          dataRetrievalProcess o'.fetch o'.dataAnalysis
            (drCountry (requestPlan o' input st)) := by
        rw [hfO, hdaO, hcty]
      have hsceq : drShortCircuit o (requestPlan o input st) ↔
          drShortCircuit o' (requestPlan o' input st) := by
        unfold drShortCircuit
        rw [hdrCeq, hdrp]
      by_cases hsc : drShortCircuit o (requestPlan o input st)
      · rw [processInput_drClar_eq o input ts st hu hnc hsc,
          processInput_drClar_eq o' input ts st hu' hnc' (hsceq.mp hsc)]
        refine ⟨fun h => by simp at h, rfl, rfl, ?_⟩
        simp only [hlcCeq]
      · have hsc' : ¬ drShortCircuit o' (requestPlan o' input st) :=
          fun h => hsc (hsceq.mpr h)
        have hact : completedActivated input (requestPlan o input st) =
            completedActivated input (requestPlan o' input st) := by
          unfold completedActivated
          simp only [hlcCeq, hdrCeq, htrCeq]
        rw [processInput_success_eq o input ts st hu hnc hsc,
          processInput_success_eq o' input ts st hu' hnc' hsc']
        refine ⟨fun _ => completedActivated_sublist input (requestPlan o input st),
          hact, rfl, ?_⟩
        simp only [hact]

theorem dispatcher_fixed_topological_order_witness :
    (processInput oSuccess inputJapan "t0" {}).result.status = "success" ∧
    ((processInput oSuccess inputJapan "t0" {}).result.metadata.agents_activated).Sublist
      agentCatalogOrder ∧
    (processInput oSuccess inputJapan "t0" {}).result.metadata.agents_activated =
      (processInput oSuccessPerm inputJapan "t0" {}).result.metadata.agents_activated ∧
    (processInput oSuccess inputJapan "t0" {}).invoked =
      (processInput oSuccessPerm inputJapan "t0" {}).invoked := by
  have hplan : Plan.sameUpToAgentOrder (requestPlan oSuccess inputJapan {})
      (requestPlan oSuccessPerm inputJapan {}) := by
    refine ⟨rfl, rfl, rfl, rfl, rfl, rfl, rfl, rfl, ?_⟩
    intro a
    show a ∈ ["data_retrieval", "conversation"] ↔ a ∈ ["conversation", "data_retrieval"]
    simp [or_comm]
  have h := dispatcher_fixed_topological_order oSuccess oSuccessPerm inputJapan "t0" {}
    ⟨rfl, rfl, rfl, rfl, rfl, rfl, rfl⟩ hplan
  exact ⟨by decide, h.1 (by decide), h.2.1, h.2.2.2⟩

end Culturo
